import Mathlib

/-!
A shallow embedding of the failed-pod automatic restart subsystem of an
Argo-Workflows-style controller, together with proofs about its behaviour.

The classifier (`analyzePodForRestart`, `mainContainerNeverStarted`,
`isRestartableReason`, `getEvictionReason`) is translated from
`workflow/controller/pod_restart.go`.  The restart-count accountant
(`getFailedPodRestartCount`, `setFailedPodRestartCount`,
`incrementFailedPodRestartCount`) is translated from the controller sources
that carry those functions.  Machine integers (`int32`) are modelled as `Int`
with explicit wraparound where Go overflows; `strconv.ParseInt(s, 10, 32)`
and `strconv.FormatInt(v, 10)` are modelled character-by-character.
-/

set_option autoImplicit false

namespace ArgoPodRestart

/-- Pod phase, `apiv1.PodPhase` restricted to its five documented values. -/
inductive PodPhase where
  | pending
  | running
  | succeeded
  | failed
  | unknownPhase
deriving DecidableEq, Repr

/-- `apiv1.ContainerStateWaiting` (fields the subsystem can see). -/
structure ContainerStateWaiting where
  reason : String := ""
  message : String := ""
deriving DecidableEq, Repr

/-- `apiv1.ContainerStateRunning`; `startedAt` in seconds since the epoch. -/
structure ContainerStateRunning where
  startedAt : Nat := 0
deriving DecidableEq, Repr

/-- `apiv1.ContainerStateTerminated`; a `startedAt` of `0` models the zero
`metav1.Time`, i.e. `StartedAt.IsZero()` in Go. -/
structure ContainerStateTerminated where
  exitCode : Int := 0
  reason : String := ""
  startedAt : Nat := 0
  finishedAt : Nat := 0
deriving DecidableEq, Repr

/-- `apiv1.ContainerState`: three nilable pointers in Go, here `Option`s. -/
structure ContainerState where
  waiting : Option ContainerStateWaiting := none
  running : Option ContainerStateRunning := none
  terminated : Option ContainerStateTerminated := none
deriving DecidableEq, Repr

/-- `apiv1.ContainerStatus` (fields the subsystem reads). -/
structure ContainerStatus where
  name : String := ""
  state : ContainerState := {}
  lastTerminationState : ContainerState := {}
deriving DecidableEq, Repr

/-- `apiv1.ConditionStatus`: True, False or Unknown. -/
inductive ConditionStatus where
  | conditionTrue
  | conditionFalse
  | conditionUnknown
deriving DecidableEq, Repr

/-- `apiv1.PodCondition` (fields the subsystem reads). -/
structure PodCondition where
  type : String := ""
  status : ConditionStatus := ConditionStatus.conditionUnknown
deriving DecidableEq, Repr

/-- `apiv1.PodStatus` (fields the subsystem reads). -/
structure PodStatus where
  phase : PodPhase := PodPhase.pending
  reason : String := ""
  message : String := ""
  conditions : List PodCondition := []
  initContainerStatuses : List ContainerStatus := []
  containerStatuses : List ContainerStatus := []
deriving DecidableEq, Repr

/-- `apiv1.Pod` restricted to its status, the only part the subsystem reads. -/
structure Pod where
  status : PodStatus := {}
deriving DecidableEq, Repr

/-- Modelled from the spec: the template descriptor carries a predicate
`isMainContainerName(name) → bool` identifying which container(s) in the pod
execute user code (`wfv1.Template.IsMainContainerName` lives outside the
analyzed sources). -/
structure Template where
  isMainContainerName : String → Bool

/-- Modelled from the spec: `common.MainContainerName`, the literal container
name the classifier falls back to when no template is given. -/
def mainContainerName : String := "main"

/-- Per-status main-container test inlined in the loop of
`mainContainerNeverStarted` (pod_restart.go lines 51-56): use the template's
predicate when a template is present, otherwise compare against `"main"`. -/
def isMainContainerForTemplate (tmpl : Option Template) (name : String) : Bool :=
  match tmpl with
  | some t => t.isMainContainerName name
  | none => name == mainContainerName

/-- Per-status evidence-of-run test inside the loop of
`mainContainerNeverStarted` (pod_restart.go lines 58-63): the container's
current state is Running, or its last-termination state is Running, or its
current state is Terminated with a non-zero `StartedAt`. -/
def containerShowsRun (status : ContainerStatus) : Bool :=
  status.state.running.isSome || status.lastTerminationState.running.isSome ||
    (match status.state.terminated with
     | some t => !(t.startedAt == 0)
     | none => false)

/-- Embeds `mainContainerNeverStarted` (pod_restart.go lines 43-67).  The Go
loop returns `false` as soon as some main container shows evidence of a run
and `true` after the loop, which is exactly `List.all` of the negated
per-status test. -/
def mainContainerNeverStarted (pod : Pod) (tmpl : Option Template) : Bool :=
  if pod.status.containerStatuses.length == 0 then
    true
  else
    pod.status.containerStatuses.all fun status =>
      !(isMainContainerForTemplate tmpl status.name && containerShowsRun status)

/-- Embeds `isRestartableReason` (pod_restart.go lines 75-81): a Go `switch`
whose single multi-value case is the disjunction of exact (case-sensitive)
comparisons of the terminal reason. -/
def isRestartableReason (reason : String) : Bool :=
  reason == "Evicted" || reason == "NodeShutdown" || reason == "NodeAffinity" ||
    reason == "UnexpectedAdmissionError"

/-- Embeds `podRestartInfo` (pod_restart.go lines 13-17). -/
structure PodRestartInfo where
  shouldRestart : Bool := false
  reason : String := ""
  neverStarted : Bool := false
deriving DecidableEq, Repr

/-- Embeds `analyzePodForRestart` (pod_restart.go lines 24-40): gate on the
`Failed` phase, then on the main container never having started, then decide
restartability from the terminal reason alone. -/
def analyzePodForRestart (pod : Pod) (tmpl : Option Template) : PodRestartInfo :=
  let info : PodRestartInfo := { reason := pod.status.reason }
  if pod.status.phase ≠ PodPhase.failed then
    info
  else
    let neverStarted := mainContainerNeverStarted pod tmpl
    if !neverStarted then
      { info with neverStarted := neverStarted }
    else
      { info with neverStarted := neverStarted,
                  shouldRestart := isRestartableReason pod.status.reason }

/-- Index of the first occurrence of the character `c` in `l`, mirroring Go's
`strings.Index` for a one-character pattern (`none` plays Go's `-1`). -/
def charIndex (c : Char) : List Char → Option Nat
  | [] => none
  | x :: xs => if x == c then some 0 else (charIndex c xs).map (· + 1)

/-- Embeds `getEvictionReason` (pod_restart.go lines 85-99), at character
rather than byte granularity: for an `Evicted` pod, return the text between
the first `[` of the status message and the first `]` after it; if that
bracketed segment is missing, return the terminal reason, and for any other
terminal reason return the empty string. -/
def getEvictionReason (pod : Pod) : String :=
  if pod.status.reason ≠ "Evicted" then
    ""
  else
    let msg := pod.status.message.toList
    match charIndex '[' msg with
    | none => pod.status.reason
    | some idx =>
      match charIndex ']' (msg.drop idx) with
      | none => pod.status.reason
      | some endIdx => String.mk ((msg.drop (idx + 1)).take (endIdx - 1))

/-- Modelled from the spec: `common.AnnotationKeyFailedPodRestartCountPrefix`
(the constant itself lives outside the analyzed sources); the source name is
shortened here.  Reserved key stem for per-node restart counters. -/
def keyFailedPodRestartCount : String := "workflows.argoproj.io/failed-pod-restart-count/"

/-- The workflow object restricted to what the accountant touches: its
annotation map `map[string]string`.  Go distinguishes a nil map from an empty
one, hence the `Option`; the map itself is an association list keyed on the
first component.  The Go field is named `Annotations`. -/
structure Workflow where
  annots : Option (List (String × String)) := none
deriving DecidableEq, Repr

/-- Map read `m[key]` on an association list: first entry with the key. -/
def lookupAnn (m : List (String × String)) (key : String) : Option String :=
  match m with
  | [] => none
  | p :: rest => if p.1 == key then some p.2 else lookupAnn rest key

/-- Map write `m[key] = value` on an association list: replace in place or
append. -/
def insertAnn (m : List (String × String)) (key value : String) : List (String × String) :=
  match m with
  | [] => [(key, value)]
  | p :: rest => if p.1 == key then (key, value) :: rest else p :: insertAnn rest key value

/-- Decimal-digit test on a character (`'0'` to `'9'`). -/
def isDigitChar (c : Char) : Bool :=
  48 ≤ c.toNat && c.toNat ≤ 57

/-- Value of a digit string, most significant first. -/
def digitsToNat (l : List Char) : Nat :=
  l.foldl (fun acc c => acc * 10 + (c.toNat - 48)) 0

/-- Sign handling of `strconv.ParseInt`: strip one leading `+` or `-`. -/
def splitSign (l : List Char) : Bool × List Char :=
  match l with
  | [] => (false, [])
  | c :: rest =>
    if c == '+' then (false, rest)
    else if c == '-' then (true, rest)
    else (false, c :: rest)

/-- Embeds `strconv.ParseInt(s, 10, 32)` as the accountant uses it: an
optional sign followed by one or more base-10 digits whose value lies in the
signed 32-bit range; every other string is an error, modelled as `none`. -/
def parseInt32 (s : String) : Option Int :=
  let sd := splitSign s.toList
  if sd.2.isEmpty then none
  else if sd.2.all isDigitChar then
    let mag : Int := (digitsToNat sd.2 : Int)
    let v : Int := if sd.1 then -mag else mag
    if -(2 ^ 31) ≤ v ∧ v ≤ 2 ^ 31 - 1 then some v else none
  else none

/-- Decimal-digit character for `d < 10` (`'0'` to `'9'`). -/
def digitChar (d : Nat) : Char :=
  match d with
  | 0 => '0'
  | 1 => '1'
  | 2 => '2'
  | 3 => '3'
  | 4 => '4'
  | 5 => '5'
  | 6 => '6'
  | 7 => '7'
  | 8 => '8'
  | _ => '9'

/-- Fuel-driven worker for `natDigits`; structural recursion keeps the
function kernel-reducible, and the fuel below always suffices. -/
def natDigitsAux (fuel : Nat) (n : Nat) : List Char :=
  match fuel with
  | 0 => []
  | fuel + 1 =>
    if n < 10 then [digitChar n]
    else natDigitsAux fuel (n / 10) ++ [digitChar (n % 10)]

/-- Decimal digits of a natural number, most significant first. -/
def natDigits (n : Nat) : List Char :=
  natDigitsAux (n + 1) n

/-- Embeds `strconv.FormatInt(int64(count), 10)`: minus sign for negative
values, then the decimal digits of the magnitude. -/
def formatInt (i : Int) : String :=
  if i < 0 then String.mk ('-' :: natDigits i.natAbs)
  else String.mk (natDigits i.toNat)

/-- Embeds `getFailedPodRestartCount` (controller source): 0 for a nil
annotation map, a missing key, or an unparseable value; otherwise the parsed
32-bit count.  The Go function only reads the workflow, which the embedding
reflects by not returning one. -/
def getFailedPodRestartCount (wf : Workflow) (nodeID : String) : Int :=
  match wf.annots with
  | none => 0
  | some m =>
    match lookupAnn m (keyFailedPodRestartCount ++ nodeID) with
    | some countStr =>
      match parseInt32 countStr with
      | some count => count
      | none => 0
    | none => 0

/-- Embeds `setFailedPodRestartCount` (controller source): make the map if it
is nil, write the decimal encoding under the per-node key, and report whether
the stored value changed (a missing key reads as `""` in Go). -/
def setFailedPodRestartCount (wf : Workflow) (nodeID : String) (count : Int) :
    Workflow × Bool :=
  let m := match wf.annots with
    | none => []
    | some m => m
  let key := keyFailedPodRestartCount ++ nodeID
  let newValue := formatInt count
  let old := match lookupAnn m key with
    | some v => v
    | none => ""
  if old ≠ newValue then
    ({ annots := some (insertAnn m key newValue) }, true)
  else
    ({ annots := some m }, false)

/-- Go `int32` wraparound: reduce an integer modulo `2^32` into
`[-2^31, 2^31)`. -/
def wrap32 (x : Int) : Int :=
  (x + 2 ^ 31) % 2 ^ 32 - 2 ^ 31

/-- Embeds `incrementFailedPodRestartCount` (controller source):
`count := get(wf, nodeID) + 1` computed in `int32` (hence the wrap), stored
with `set`, and returned. -/
def incrementFailedPodRestartCount (wf : Workflow) (nodeID : String) :
    Workflow × Int :=
  let count := wrap32 (getFailedPodRestartCount wf nodeID + 1)
  ((setFailedPodRestartCount wf nodeID count).1, count)

/-- Spec-side predicate: `s` is the ASCII decimal encoding of a non-negative
32-bit integer — digits only, no redundant leading zero, value below `2^31`. -/
def isCanonicalNonnegInt32 (s : String) : Bool :=
  match s.toList with
  | [] => false
  | c :: rest =>
    (c :: rest).all isDigitChar && (c != '0' || rest.isEmpty) &&
      digitsToNat (c :: rest) < 2 ^ 31

/-! Classifier theorems. -/

/-- C3: for every pod and every template, a classifier output with
`shouldRestart = true` also has `neverStarted = true`. -/
theorem shouldRestart_implies_neverStarted (pod : Pod) (tmpl : Option Template)
    (h : (analyzePodForRestart pod tmpl).shouldRestart = true) :
    (analyzePodForRestart pod tmpl).neverStarted = true := by
  unfold analyzePodForRestart at h ⊢
  by_cases hph : pod.status.phase = PodPhase.failed
  · simp only [hph, ne_eq, not_true_eq_false, if_false] at h ⊢
    cases hnev : mainContainerNeverStarted pod tmpl with
    | false => simp [hnev] at h
    | true => simp [hnev]
  · simp [hph] at h

/-- C3 witness: a failed, evicted pod with no container statuses is
classified `shouldRestart = true`, hence `neverStarted = true`. -/
theorem shouldRestart_implies_neverStarted_witness :
    (analyzePodForRestart
      { status := { phase := PodPhase.failed, reason := "Evicted" } } none).neverStarted = true :=
  shouldRestart_implies_neverStarted
    { status := { phase := PodPhase.failed, reason := "Evicted" } } none (by decide)

/-- C4: for every pod whose phase is not `Failed`, the classifier returns
`shouldRestart = false` and `neverStarted = false`, whatever the template,
container statuses, terminal reason or message. -/
theorem non_failed_no_restart (pod : Pod) (tmpl : Option Template)
    (hph : pod.status.phase ≠ PodPhase.failed) :
    (analyzePodForRestart pod tmpl).shouldRestart = false ∧
      (analyzePodForRestart pod tmpl).neverStarted = false := by
  unfold analyzePodForRestart
  simp [hph]

/-- C4 witness: a running pod with a restartable reason and a main container
that never ran is still not a restart candidate. -/
theorem non_failed_no_restart_witness :
    (analyzePodForRestart
      { status := { phase := PodPhase.running, reason := "Evicted" } } none).shouldRestart = false ∧
      (analyzePodForRestart
        { status := { phase := PodPhase.running, reason := "Evicted" } } none).neverStarted = false :=
  non_failed_no_restart
    { status := { phase := PodPhase.running, reason := "Evicted" } } none (by decide)

/-- C9: a failed pod with an empty container-status list is classified
`neverStarted = true`. -/
theorem empty_statuses_neverStarted (pod : Pod) (tmpl : Option Template)
    (hph : pod.status.phase = PodPhase.failed)
    (hempty : pod.status.containerStatuses = []) :
    (analyzePodForRestart pod tmpl).neverStarted = true := by
  have hnev : mainContainerNeverStarted pod tmpl = true := by
    unfold mainContainerNeverStarted
    simp [hempty]
  unfold analyzePodForRestart
  simp [hph, hnev]

/-- C9 witness: concrete failed pod with no container statuses. -/
theorem empty_statuses_neverStarted_witness :
    (analyzePodForRestart { status := { phase := PodPhase.failed } } none).neverStarted = true :=
  empty_statuses_neverStarted { status := { phase := PodPhase.failed } } none rfl rfl

/-- C10: a pod whose container-status list is non-empty but contains no
status recognised as a main container (template predicate, or the literal
name `"main"` without a template) is treated as never started, even when the
listed containers ran. -/
theorem no_main_status_neverStarted (pod : Pod) (tmpl : Option Template)
    (hne : pod.status.containerStatuses ≠ [])
    (hnomain : ∀ s ∈ pod.status.containerStatuses,
      isMainContainerForTemplate tmpl s.name = false) :
    mainContainerNeverStarted pod tmpl = true := by
  unfold mainContainerNeverStarted
  have hlen : (pod.status.containerStatuses.length == 0) = false := by
    simp only [beq_eq_false_iff_ne, ne_eq, List.length_eq_zero]
    exact hne
  simp only [hlen, Bool.false_eq_true, if_false, List.all_eq_true]
  intro s hs
  simp [hnomain s hs]

/-- C10 witness: a failed pod whose only listed container is a running
sidecar is still `neverStarted = true`. -/
theorem no_main_status_neverStarted_witness :
    mainContainerNeverStarted
      { status := { phase := PodPhase.failed,
                    containerStatuses := [{ name := "sidecar",
                                            state := { running := some {} } }] } } none = true :=
  no_main_status_neverStarted
    { status := { phase := PodPhase.failed,
                  containerStatuses := [{ name := "sidecar",
                                          state := { running := some {} } }] } } none
    (by decide) (by decide)

/-- C2: as soon as some main container shows evidence of having run — a
current or last-termination Running state, or a current Terminated state with
non-zero `startedAt` — the classifier returns `neverStarted = false` and
`shouldRestart = false`. -/
theorem evidence_of_run_no_restart (pod : Pod) (tmpl : Option Template)
    (s : ContainerStatus)
    (hmem : s ∈ pod.status.containerStatuses)
    (hmain : isMainContainerForTemplate tmpl s.name = true)
    (hran : containerShowsRun s = true) :
    (analyzePodForRestart pod tmpl).neverStarted = false ∧
      (analyzePodForRestart pod tmpl).shouldRestart = false := by
  have hnev : mainContainerNeverStarted pod tmpl = false := by
    unfold mainContainerNeverStarted
    have hlen : (pod.status.containerStatuses.length == 0) = false := by
      simp only [beq_eq_false_iff_ne, ne_eq, List.length_eq_zero]
      exact List.ne_nil_of_mem hmem
    simp only [hlen, Bool.false_eq_true, if_false]
    rw [Bool.eq_false_iff]
    intro hall
    have := List.all_eq_true.mp hall s hmem
    simp [hmain, hran] at this
  unfold analyzePodForRestart
  by_cases hph : pod.status.phase = PodPhase.failed
  · simp [hph, hnev]
  · simp [hph]

/-- C2 witness: a failed, evicted pod whose main container ran and
terminated is neither `neverStarted` nor restartable. -/
theorem evidence_of_run_no_restart_witness :
    (analyzePodForRestart
      { status := { phase := PodPhase.failed, reason := "Evicted",
                    containerStatuses := [{ name := "main",
                                            state := { terminated := some { exitCode := 1,
                                                                            startedAt := 5,
                                                                            finishedAt := 9 } } }] } }
      none).neverStarted = false ∧
      (analyzePodForRestart
        { status := { phase := PodPhase.failed, reason := "Evicted",
                      containerStatuses := [{ name := "main",
                                              state := { terminated := some { exitCode := 1,
                                                                              startedAt := 5,
                                                                              finishedAt := 9 } } }] } }
        none).shouldRestart = false :=
  evidence_of_run_no_restart
    { status := { phase := PodPhase.failed, reason := "Evicted",
                  containerStatuses := [{ name := "main",
                                          state := { terminated := some { exitCode := 1,
                                                                          startedAt := 5,
                                                                          finishedAt := 9 } } }] } }
    none
    { name := "main",
      state := { terminated := some { exitCode := 1, startedAt := 5, finishedAt := 9 } } }
    (by decide) (by decide) (by decide)

/-- C1 counterexample: a failed pod with terminal reason `"Preempted"` whose
main container never started (no container statuses at all) is NOT classified
restartable, although `"Preempted"` lies in the claimed five-reason set — the
classifier's switch recognises only four reasons. -/
theorem preempted_not_restartable_cex :
    (analyzePodForRestart
        { status := { phase := PodPhase.failed, reason := "Preempted" } } none).neverStarted = true ∧
      ¬ ((analyzePodForRestart
            { status := { phase := PodPhase.failed, reason := "Preempted" } } none).shouldRestart = true ↔
          (("Preempted" : String) = "Evicted" ∨ ("Preempted" : String) = "Preempted" ∨
            ("Preempted" : String) = "NodeShutdown" ∨ ("Preempted" : String) = "NodeAffinity" ∨
            ("Preempted" : String) = "UnexpectedAdmissionError")) := by
  constructor
  · decide
  · intro h
    have := h.mpr (Or.inr (Or.inl rfl))
    exact absurd this (by decide)

/-- C1 (amended): for every failed pod whose main container never started,
the classifier restarts exactly when the terminal reason is one of the four
case-sensitive reasons `Evicted`, `NodeShutdown`, `NodeAffinity`,
`UnexpectedAdmissionError`; no other signal — message substrings, pod
conditions, or any other pod field — plays a role, as the equivalence holds
with all of those left arbitrary. -/
theorem restartable_iff_reason (pod : Pod) (tmpl : Option Template)
    (hph : pod.status.phase = PodPhase.failed)
    (hnev : mainContainerNeverStarted pod tmpl = true) :
    ((analyzePodForRestart pod tmpl).shouldRestart = true ↔
      (pod.status.reason = "Evicted" ∨ pod.status.reason = "NodeShutdown" ∨
        pod.status.reason = "NodeAffinity" ∨ pod.status.reason = "UnexpectedAdmissionError")) := by
  unfold analyzePodForRestart
  simp [hph, hnev, isRestartableReason]
  tauto

/-- C1 (amended) witness: a failed, evicted pod with no container statuses
is classified restartable. -/
theorem restartable_iff_reason_witness :
    (analyzePodForRestart
      { status := { phase := PodPhase.failed, reason := "Evicted" } } none).shouldRestart = true :=
  (restartable_iff_reason
      { status := { phase := PodPhase.failed, reason := "Evicted" } } none rfl (by decide)).mpr
    (Or.inl rfl)

/-! Decimal encoding and parsing lemmas. -/

/-- Value and digit facts for `digitChar`. -/
theorem digitChar_toNat (d : Nat) (h : d < 10) : (digitChar d).toNat = 48 + d := by
  interval_cases d <;> rfl

/-- Every `digitChar` below ten is a decimal digit. -/
theorem isDigitChar_digitChar (d : Nat) (h : d < 10) : isDigitChar (digitChar d) = true := by
  interval_cases d <;> rfl

/-- The fuel of `natDigitsAux` is irrelevant once it exceeds the input. -/
theorem natDigitsAux_congr (f1 : Nat) : ∀ f2 n : Nat, n < f1 → n < f2 →
    natDigitsAux f1 n = natDigitsAux f2 n := by
  induction f1 using Nat.strong_induction_on with
  | _ f1 ih =>
    intro f2 n h1 h2
    obtain ⟨g1, rfl⟩ : ∃ g, f1 = g + 1 := ⟨f1 - 1, by omega⟩
    obtain ⟨g2, rfl⟩ : ∃ g, f2 = g + 1 := ⟨f2 - 1, by omega⟩
    simp only [natDigitsAux]
    by_cases h : n < 10
    · simp [h]
    · rw [if_neg h, if_neg h]
      congr 1
      exact ih g1 (by omega) g2 (n / 10) (by omega) (by omega)

/-- Unfolding equation of `natDigits`. -/
theorem natDigits_eq (n : Nat) :
    natDigits n = if n < 10 then [digitChar n]
      else natDigits (n / 10) ++ [digitChar (n % 10)] := by
  unfold natDigits
  simp only [natDigitsAux]
  by_cases h : n < 10
  · simp [h]
  · rw [if_neg h, if_neg h]
    congr 1
    exact natDigitsAux_congr n (n / 10 + 1) (n / 10) (by omega) (by omega)

/-- `natDigits` never returns the empty list. -/
theorem natDigits_ne_nil (n : Nat) : natDigits n ≠ [] := by
  rw [natDigits_eq]
  by_cases h : n < 10 <;> simp [h]

/-- Every character `natDigits` produces is a decimal digit. -/
theorem natDigits_all_digits (n : Nat) : (natDigits n).all isDigitChar = true := by
  induction n using Nat.strong_induction_on with
  | _ n ih =>
    rw [natDigits_eq]
    by_cases h : n < 10
    · rw [if_pos h]
      simp [isDigitChar_digitChar n h]
    · rw [if_neg h, List.all_append]
      simp [ih (n / 10) (by omega),
        isDigitChar_digitChar (n % 10) (Nat.mod_lt n (by omega))]

/-- Appending one digit multiplies the accumulated value by ten. -/
theorem digitsToNat_append (l : List Char) (c : Char) :
    digitsToNat (l ++ [c]) = digitsToNat l * 10 + (c.toNat - 48) := by
  simp [digitsToNat, List.foldl_append]

/-- Parsing the digits of `n` recovers `n`. -/
theorem digitsToNat_natDigits (n : Nat) : digitsToNat (natDigits n) = n := by
  induction n using Nat.strong_induction_on with
  | _ n ih =>
    rw [natDigits_eq]
    by_cases h : n < 10
    · rw [if_pos h]
      simp [digitsToNat, digitChar_toNat n h]
    · rw [if_neg h, digitsToNat_append, ih (n / 10) (by omega),
        digitChar_toNat (n % 10) (Nat.mod_lt n (by omega))]
      omega

/-- A decimal digit is neither `+` nor `-`. -/
theorem isDigitChar_not_sign {c : Char} (h : isDigitChar c = true) :
    (c == '+') = false ∧ (c == '-') = false := by
  constructor
  · cases hc : c == '+' with
    | false => rfl
    | true =>
      rw [eq_of_beq hc] at h
      exact absurd h (by decide)
  · cases hc : c == '-' with
    | false => rfl
    | true =>
      rw [eq_of_beq hc] at h
      exact absurd h (by decide)

/-- `splitSign` leaves an all-digit string alone. -/
theorem splitSign_all_digits (l : List Char) (h : l.all isDigitChar = true) :
    splitSign l = (false, l) := by
  cases l with
  | nil => rfl
  | cons c rest =>
    have hc : isDigitChar c = true := List.all_eq_true.mp h c (by simp)
    obtain ⟨h1, h2⟩ := isDigitChar_not_sign hc
    simp [splitSign, h1, h2]

/-- `natDigits` is never empty, stated on `isEmpty`. -/
theorem natDigits_isEmpty (n : Nat) : (natDigits n).isEmpty = false := by
  cases h : natDigits n with
  | nil => exact absurd h (natDigits_ne_nil n)
  | cons c rest => rfl

/-- Unfolding `String.toList` on `String.mk`. -/
theorem toList_mk (l : List Char) : (String.mk l).toList = l := rfl

/-- Parsing undoes formatting throughout the signed 32-bit range. -/
theorem parseInt32_formatInt (k : Int) (h0 : -(2 ^ 31) ≤ k) (h1 : k ≤ 2 ^ 31 - 1) :
    parseInt32 (formatInt k) = some k := by
  by_cases hk : k < 0
  · have hfmt : formatInt k = String.mk ('-' :: natDigits k.natAbs) := by
      unfold formatInt
      rw [if_pos hk]
    unfold parseInt32
    rw [hfmt, toList_mk]
    have hsplit : splitSign ('-' :: natDigits k.natAbs) = (true, natDigits k.natAbs) := by
      simp [splitSign]
    rw [hsplit]
    simp only [natDigits_isEmpty, Bool.false_eq_true, if_false,
      natDigits_all_digits, if_true, digitsToNat_natDigits]
    have hval : -((k.natAbs : Int)) = k := by omega
    rw [hval]
    rw [if_pos ⟨h0, h1⟩]
  · have hfmt : formatInt k = String.mk (natDigits k.toNat) := by
      unfold formatInt
      rw [if_neg hk]
    unfold parseInt32
    rw [hfmt, toList_mk]
    rw [splitSign_all_digits (natDigits k.toNat) (natDigits_all_digits _)]
    simp only [natDigits_isEmpty, Bool.false_eq_true, if_false,
      natDigits_all_digits, if_true, digitsToNat_natDigits]
    have hval : ((k.toNat : Int)) = k := by omega
    rw [hval]
    rw [if_pos ⟨h0, h1⟩]

/-- Formatting never yields the empty string. -/
theorem formatInt_ne_empty (k : Int) : formatInt k ≠ "" := by
  intro h
  have h2 := congrArg String.toList h
  unfold formatInt at h2
  by_cases hk : k < 0
  · rw [if_pos hk, toList_mk] at h2
    simp at h2
  · rw [if_neg hk, toList_mk] at h2
    exact absurd h2 (natDigits_ne_nil _)

/-! Annotation-map lemmas. -/

/-- Reading back the key just written. -/
theorem lookupAnn_insertAnn (m : List (String × String)) (key v : String) :
    lookupAnn (insertAnn m key v) key = some v := by
  induction m with
  | nil => simp [insertAnn, lookupAnn]
  | cons p rest ih =>
    unfold insertAnn
    cases hp : p.1 == key with
    | true => simp [lookupAnn]
    | false => simp [lookupAnn, hp, ih]

/-- After `set`, the annotation map exists and holds the encoded count. -/
theorem set_lookup (wf : Workflow) (nodeID : String) (k : Int) :
    ∃ m2, (setFailedPodRestartCount wf nodeID k).1.annots = some m2 ∧
      lookupAnn m2 (keyFailedPodRestartCount ++ nodeID) = some (formatInt k) := by
  simp only [setFailedPodRestartCount]
  split
  · exact ⟨_, rfl, lookupAnn_insertAnn _ _ _⟩
  · next h =>
    rw [not_not] at h
    refine ⟨_, rfl, ?_⟩
    cases hl : lookupAnn (match wf.annots with | none => [] | some m => m)
        (keyFailedPodRestartCount ++ nodeID) with
    | none =>
      rw [hl] at h
      simp at h
      exact absurd h.symm (formatInt_ne_empty k)
    | some v =>
      rw [hl] at h
      simp at h
      rw [h]

/-- A `set` whose value is already stored reports no change. -/
theorem set_no_change_of_lookup (w : Workflow) (nodeID : String) (k : Int)
    (m : List (String × String)) (hm : w.annots = some m)
    (hlk : lookupAnn m (keyFailedPodRestartCount ++ nodeID) = some (formatInt k)) :
    (setFailedPodRestartCount w nodeID k).2 = false := by
  simp [setFailedPodRestartCount, hm, hlk]

/-- Reading after writing recovers the written 32-bit count. -/
theorem get_set (wf : Workflow) (nodeID : String) (k : Int)
    (h0 : -(2 ^ 31) ≤ k) (h1 : k ≤ 2 ^ 31 - 1) :
    getFailedPodRestartCount (setFailedPodRestartCount wf nodeID k).1 nodeID = k := by
  obtain ⟨m2, hm2, hlk⟩ := set_lookup wf nodeID k
  unfold getFailedPodRestartCount
  rw [hm2]
  simp [hlk, parseInt32_formatInt k h0 h1]

/-- `wrap32` lands in the signed 32-bit range. -/
theorem wrap32_range (x : Int) : -(2 ^ 31) ≤ wrap32 x ∧ wrap32 x ≤ 2 ^ 31 - 1 := by
  unfold wrap32
  have h31 : (2 : Int) ^ 31 = 2147483648 := by norm_num
  have h32 : (2 : Int) ^ 32 = 4294967296 := by norm_num
  rw [h31, h32]
  omega

/-- `wrap32` fixes values already in the signed 32-bit range. -/
theorem wrap32_eq_self (x : Int) (h0 : -(2 ^ 31) ≤ x) (h1 : x ≤ 2 ^ 31 - 1) :
    wrap32 x = x := by
  unfold wrap32
  have h31 : (2 : Int) ^ 31 = 2147483648 := by norm_num
  have h32 : (2 : Int) ^ 32 = 4294967296 := by norm_num
  rw [h31, h32] at *
  omega

/-! Accountant theorems. -/

/-- C8: after `set(wf, n, k)` with `k ∈ [0, 2^31)`, `get(wf, n)` returns `k`,
the annotation map exists even when it was absent before, and an immediate
second `set` with the same `k` reports `changed = false`. -/
theorem set_get_roundtrip (wf : Workflow) (nodeID : String) (k : Int)
    (h0 : 0 ≤ k) (h1 : k < 2 ^ 31) :
    getFailedPodRestartCount (setFailedPodRestartCount wf nodeID k).1 nodeID = k ∧
      (setFailedPodRestartCount wf nodeID k).1.annots ≠ none ∧
      (setFailedPodRestartCount (setFailedPodRestartCount wf nodeID k).1 nodeID k).2 = false := by
  refine ⟨get_set wf nodeID k (by omega) (by omega), ?_, ?_⟩
  · obtain ⟨m2, hm2, _⟩ := set_lookup wf nodeID k
    rw [hm2]
    simp
  · obtain ⟨m2, hm2, hlk⟩ := set_lookup wf nodeID k
    exact set_no_change_of_lookup _ nodeID k m2 hm2 hlk

/-- C8 witness: setting 5 on a workflow with a nil annotation map. -/
theorem set_get_roundtrip_witness :
    getFailedPodRestartCount
        (setFailedPodRestartCount { annots := none } ("node-1") 5).1 ("node-1") = 5 ∧
      (setFailedPodRestartCount { annots := none } ("node-1") 5).1.annots ≠ none ∧
      (setFailedPodRestartCount
        (setFailedPodRestartCount { annots := none } ("node-1") 5).1 ("node-1") 5).2 = false :=
  set_get_roundtrip { annots := none } ("node-1") 5 (by norm_num) (by norm_num)

/-- C7 counterexample: the stored string `"-5"` is not the decimal encoding
of any non-negative 32-bit integer, yet `get` returns `-5`, not `0` — Go's
`ParseInt` accepts signed values, so such malformed-per-spec strings are not
read as zero. -/
theorem get_malformed_cex :
    isCanonicalNonnegInt32 ("-5") = false ∧
      (∀ k : Int, 0 ≤ k → formatInt k ≠ "-5") ∧
      getFailedPodRestartCount
          { annots := some [(keyFailedPodRestartCount ++ "n", "-5")] } ("n") = -5 ∧
      (-5 : Int) ≠ 0 := by
  refine ⟨by decide, ?_, by decide, by decide⟩
  intro k hk hcontra
  have hne : ¬ k < 0 := by omega
  unfold formatInt at hcontra
  rw [if_neg hne] at hcontra
  have h3 := congrArg String.toList hcontra
  rw [toList_mk] at h3
  have h4 : ("-5" : String).toList = ['-', '5'] := by decide
  rw [h4] at h3
  have hall := natDigits_all_digits k.toNat
  rw [h3] at hall
  exact absurd hall (by decide)

/-- C7 (amended): `get` returns 0 when the annotation map is nil, the key is
absent, or the stored string is not `ParseInt`-parseable as a signed decimal
32-bit integer; a parseable but non-canonical value (negative, signed, or
zero-padded, e.g. `"-5"`) is returned as parsed rather than as 0.  `get` only
reads the workflow — the embedding returns no workflow at all — so stored
values are never healed by it. -/
theorem get_zero_cases (wf : Workflow) (nodeID : String) :
    (wf.annots = none → getFailedPodRestartCount wf nodeID = 0) ∧
      (∀ m, wf.annots = some m →
        lookupAnn m (keyFailedPodRestartCount ++ nodeID) = none →
        getFailedPodRestartCount wf nodeID = 0) ∧
      (∀ m s, wf.annots = some m →
        lookupAnn m (keyFailedPodRestartCount ++ nodeID) = some s →
        parseInt32 s = none →
        getFailedPodRestartCount wf nodeID = 0) ∧
      (∀ m s k, wf.annots = some m →
        lookupAnn m (keyFailedPodRestartCount ++ nodeID) = some s →
        parseInt32 s = some k →
        getFailedPodRestartCount wf nodeID = k) := by
  refine ⟨?_, ?_, ?_, ?_⟩ <;> intros <;> unfold getFailedPodRestartCount <;> simp_all

/-- C7 (amended) witness: a nil annotation map reads as 0. -/
theorem get_zero_cases_witness :
    getFailedPodRestartCount { annots := none } ("n") = 0 :=
  (get_zero_cases { annots := none } ("n")).1 rfl

/-- C6 counterexample: with the stored counter at 2147483646 — a well-formed
value — two successive increments return 2147483647 and then −2147483648:
int32 overflow, so the second returned value is not the first plus one. -/
theorem increment_overflow_cex :
    (incrementFailedPodRestartCount
        { annots := some [(keyFailedPodRestartCount ++ "n", "2147483646")] } ("n")).2 =
      2147483647 ∧
      (incrementFailedPodRestartCount
          (incrementFailedPodRestartCount
            { annots := some [(keyFailedPodRestartCount ++ "n", "2147483646")] } ("n")).1
          ("n")).2 = -2147483648 ∧
      ¬ ((incrementFailedPodRestartCount
            (incrementFailedPodRestartCount
              { annots := some [(keyFailedPodRestartCount ++ "n", "2147483646")] } ("n")).1
            ("n")).2 =
          (incrementFailedPodRestartCount
            { annots := some [(keyFailedPodRestartCount ++ "n", "2147483646")] } ("n")).2 + 1) := by
  refine ⟨by decide, by decide, by decide⟩

/-- C6 (amended): `increment` equals `set(wf, n, get(wf, n) + 1)` with the
addition performed in 32-bit arithmetic and returns that new count; two
successive increments return `k` and `wrap32 (k + 1)`, which equals `k + 1`
in every case except `k = 2^31 − 1`, where int32 overflow wraps to `−2^31`. -/
theorem increment_equiv_and_monotone (wf : Workflow) (nodeID : String) :
    incrementFailedPodRestartCount wf nodeID =
        ((setFailedPodRestartCount wf nodeID
            (wrap32 (getFailedPodRestartCount wf nodeID + 1))).1,
          wrap32 (getFailedPodRestartCount wf nodeID + 1)) ∧
      (incrementFailedPodRestartCount
          (incrementFailedPodRestartCount wf nodeID).1 nodeID).2 =
        wrap32 ((incrementFailedPodRestartCount wf nodeID).2 + 1) ∧
      ((incrementFailedPodRestartCount wf nodeID).2 ≠ 2 ^ 31 - 1 →
        (incrementFailedPodRestartCount
            (incrementFailedPodRestartCount wf nodeID).1 nodeID).2 =
          (incrementFailedPodRestartCount wf nodeID).2 + 1) := by
  have hsecond :
      (incrementFailedPodRestartCount
          (incrementFailedPodRestartCount wf nodeID).1 nodeID).2 =
        wrap32 ((incrementFailedPodRestartCount wf nodeID).2 + 1) := by
    simp only [incrementFailedPodRestartCount]
    rw [get_set wf nodeID _ (wrap32_range _).1 (wrap32_range _).2]
  refine ⟨rfl, hsecond, ?_⟩
  intro hne
  rw [hsecond]
  have hv : (incrementFailedPodRestartCount wf nodeID).2 =
      wrap32 (getFailedPodRestartCount wf nodeID + 1) := rfl
  have hr := wrap32_range (getFailedPodRestartCount wf nodeID + 1)
  rw [hv] at hne ⊢
  have h31 : (2 : Int) ^ 31 = 2147483648 := by norm_num
  rw [h31] at hne hr
  refine wrap32_eq_self _ ?_ ?_ <;> rw [h31] <;> omega

/-- C6 (amended) witness: from a fresh workflow the first two increments
return 1 and 2. -/
theorem increment_equiv_and_monotone_witness :
    (incrementFailedPodRestartCount
        (incrementFailedPodRestartCount { annots := none } ("n")).1 ("n")).2 =
      (incrementFailedPodRestartCount { annots := none } ("n")).2 + 1 :=
  (increment_equiv_and_monotone { annots := none } ("n")).2.2 (by decide)

/-! Index lemmas for the eviction-reason extractor. -/

/-- A missing index means the character does not occur. -/
theorem charIndex_eq_none (c : Char) (l : List Char) :
    charIndex c l = none ↔ c ∉ l := by
  induction l with
  | nil => simp [charIndex]
  | cons x xs ih =>
    simp only [charIndex]
    cases hx : x == c with
    | true =>
      have hxc : x = c := eq_of_beq hx
      subst hxc
      simp
    | false =>
      have hxc : ¬ c = x := fun h => by simp [h] at hx
      simp [Option.map_eq_none', ih, hxc]

/-- The index of `c` in `a ++ c :: b` is `a.length` when `c` avoids `a`. -/
theorem charIndex_append (a : List Char) (c : Char) (b : List Char) (h : c ∉ a) :
    charIndex c (a ++ c :: b) = some a.length := by
  induction a with
  | nil => simp [charIndex]
  | cons x xs ih =>
    simp only [List.mem_cons, not_or] at h
    have hx : (x == c) = false := by
      cases hxc : x == c with
      | false => rfl
      | true => exact absurd (eq_of_beq hxc).symm h.1
    simp only [List.cons_append, charIndex, hx, Bool.false_eq_true, if_false, List.append_eq]
    rw [ih h.2]
    simp

/-- A found index decomposes the list around the first occurrence. -/
theorem charIndex_eq_some (c : Char) (l : List Char) (i : Nat)
    (h : charIndex c l = some i) :
    ∃ a b, l = a ++ c :: b ∧ c ∉ a ∧ a.length = i := by
  induction l generalizing i with
  | nil => simp [charIndex] at h
  | cons x xs ih =>
    simp only [charIndex] at h
    cases hx : x == c with
    | true =>
      have hxc : x = c := eq_of_beq hx
      subst hxc
      rw [hx, if_pos rfl] at h
      obtain rfl : (0 : Nat) = i := Option.some.inj h
      exact ⟨[], xs, rfl, by simp, rfl⟩
    | false =>
      rw [hx] at h
      simp only [Bool.false_eq_true, if_false] at h
      obtain ⟨j, hj, rfl⟩ := Option.map_eq_some'.mp h
      obtain ⟨a, b, rfl, hna, rfl⟩ := ih j hj
      refine ⟨x :: a, b, by simp, ?_, by simp⟩
      simp only [List.mem_cons, not_or]
      exact ⟨fun hcx => by simp [hcx.symm] at hx, hna⟩

/-- C5: the eviction-reason extractor returns the text between the first `[`
of the terminal message and the first `]` after it when the terminal reason
is exactly `"Evicted"`; with no such bracketed segment it returns the
terminal reason itself, and for any other terminal reason it returns the
empty string. -/
theorem eviction_reason_spec (pod : Pod) :
    (pod.status.reason ≠ "Evicted" → getEvictionReason pod = "") ∧
      (pod.status.reason = "Evicted" →
        (∀ a b c, pod.status.message.toList = a ++ '[' :: (b ++ ']' :: c) →
            ('[' ∉ a) → (']' ∉ b) → getEvictionReason pod = String.mk b) ∧
          ((¬ ∃ a b c, pod.status.message.toList = a ++ '[' :: (b ++ ']' :: c)) →
            getEvictionReason pod = pod.status.reason)) := by
  constructor
  · intro h
    unfold getEvictionReason
    rw [if_pos h]
  · intro hev
    constructor
    · intro a b c hdecomp hna hnb
      have h1 : charIndex '[' (a ++ '[' :: (b ++ ']' :: c)) = some a.length :=
        charIndex_append a '[' (b ++ ']' :: c) hna
      have hnb2 : ']' ∉ ('[' :: b) := by
        simp only [List.mem_cons, not_or]
        exact ⟨by decide, hnb⟩
      have h2 : charIndex ']' ('[' :: (b ++ ']' :: c)) = some (b.length + 1) := by
        have hshape : ('[' :: (b ++ ']' :: c)) = ('[' :: b) ++ (']' :: c) := by simp
        rw [hshape]
        have h3 := charIndex_append ('[' :: b) ']' c hnb2
        simpa using h3
      have hdrop1 : (a ++ '[' :: (b ++ ']' :: c)).drop a.length = '[' :: (b ++ ']' :: c) :=
        List.drop_left a ('[' :: (b ++ ']' :: c))
      have hdrop2 : (a ++ '[' :: (b ++ ']' :: c)).drop (a.length + 1) = b ++ ']' :: c := by
        have hsh : a ++ '[' :: (b ++ ']' :: c) = (a ++ ['[']) ++ (b ++ ']' :: c) := by simp
        have hl : (a ++ ['[']).length = a.length + 1 := by simp
        rw [hsh, ← hl, List.drop_left]
      simp only [getEvictionReason, hev, ne_eq, not_true_eq_false, if_false, hdecomp,
        h1, hdrop1, h2, hdrop2, Nat.add_sub_cancel, List.take_left]
    · intro hno
      simp only [getEvictionReason, hev, ne_eq, not_true_eq_false, if_false]
      cases h1 : charIndex '[' pod.status.message.toList with
      | none => rfl
      | some idx =>
        cases h2 : charIndex ']' (pod.status.message.toList.drop idx) with
        | none =>
          have h2d : charIndex ']' (List.drop idx pod.status.message.data) = none := h2
          simp [h2d]
        | some e =>
          exfalso
          obtain ⟨a, r, hd1, hna, hlen⟩ := charIndex_eq_some '[' _ idx h1
          have hdrop : pod.status.message.toList.drop idx = '[' :: r := by
            rw [hd1, ← hlen, List.drop_left]
          rw [hdrop] at h2
          obtain ⟨a2, b2, hd2, hna2, hlen2⟩ := charIndex_eq_some ']' _ e h2
          cases a2 with
          | nil =>
            rw [List.nil_append] at hd2
            injection hd2 with hx hr
            exact absurd hx (by decide)
          | cons x xs =>
            rw [List.cons_append] at hd2
            injection hd2 with hx hr
            exact hno ⟨a, xs, b2, by rw [hd1, hr]⟩

/-- C5 witness: a standard eviction message yields the bracketed node
condition. -/
theorem eviction_reason_spec_witness :
    getEvictionReason
        { status := { reason := "Evicted",
                      message := "The node had condition: [DiskPressure]" } } =
      String.mk ("DiskPressure").toList :=
  ((eviction_reason_spec
        { status := { reason := "Evicted",
                      message := "The node had condition: [DiskPressure]" } }).2 rfl).1
    (("The node had condition: ").toList) (("DiskPressure").toList) []
    (by decide) (by decide) (by decide)

end ArgoPodRestart
